import Mathlib

/-!
Shallow embedding of the YouTube lead-list actor (src/main_Version2.js).

The actor is a single-pass batch job: it collects candidate channel IDs,
evaluates each candidate through an ordered filter chain, and accumulates
passing output records.  The embedding below translates the pure decision
logic of that file; network fetches are abstracted as explicit response
sequences (a function from call index to response), and the mutable loop
state of the JS code becomes explicit accumulator arguments.

Line references are to src/main_Version2.js.
-/

/-- Model of the substring test used by JS String.prototype.includes:
`leadsWith pat cs` holds when `pat` is an initial segment of `cs`. -/
def leadsWith : List Char → List Char → Bool
  | [], _ => true
  | _ :: _, [] => false
  | p :: ps, c :: cs => p == c && leadsWith ps cs

/-- `strIncl pat s` decides whether the character list `pat` occurs
contiguously inside `s` (JS `s.includes(pat)`). -/
def strIncl : List Char → List Char → Bool
  | pat, [] => leadsWith pat []
  | pat, c :: cs => leadsWith pat (c :: cs) || strIncl pat cs

/-- JS `s.includes(pat)` on strings. -/
def strContains (s pat : String) : Bool :=
  strIncl pat.data s.data

/-- JS `s.toLowerCase()` (character-wise lowering; the inputs handled by
the actor are ASCII). -/
def jsToLower (s : String) : String :=
  ⟨s.data.map Char.toLower⟩

/-- JS `s.trim()`: strip leading and trailing whitespace. -/
def jsTrim (s : String) : String :=
  ⟨((s.data.dropWhile Char.isWhitespace).reverse.dropWhile Char.isWhitespace).reverse⟩

/-- JS `parts.join(' ')` on a list of strings. -/
def joinWithSpace : List String → String
  | [] => ""
  | [s] => s
  | s :: rest => s ++ " " ++ joinWithSpace rest

/-- Accumulator pass of `pathname.split('/')`. -/
def splitSlashAux : List Char → List Char → List String
  | [], acc => [⟨acc.reverse⟩]
  | c :: cs, acc =>
    if c == '/' then ⟨acc.reverse⟩ :: splitSlashAux cs []
    else splitSlashAux cs (c :: acc)

/-- JS `s.split('/')`. -/
def splitSlash (s : String) : List String :=
  splitSlashAux s.data []

/-- JS truthiness of a nullable string: `null`/`undefined` and the empty
string are falsy, every other string is truthy. -/
def jsTruthyStr : Option String → Bool
  | none => false
  | some s => s != ""

/-- Value of a digit run, as computed by parseInt on a digit-only string
(lines 96-98 feed the regex capture groups to parseInt). -/
def digitsToNat (ds : List Char) : Nat :=
  ds.foldl (fun acc c => acc * 10 + (c.toNat - 48)) 0

/-- One optional capture group `(\d+)X` of the duration regex (line 94):
consume a maximal nonempty digit run followed by the marker character,
or fail without consuming anything. -/
def parseGroup (marker : Char) (cs : List Char) : Option (Nat × List Char) :=
  let ds := cs.takeWhile (fun c => c.isDigit)
  if ds.isEmpty then none
  else
    match cs.drop ds.length with
    | c :: rest => if c == marker then some (digitsToNat ds, rest) else none
    | [] => none

/-- An optional regex group: on failure the input is left unconsumed and the
group value is 0 (the JS code uses `m[i] || '0'`, lines 96-98). -/
def groupOr (marker : Char) (cs : List Char) : Nat × List Char :=
  match parseGroup marker cs with
  | some r => r
  | none => (0, cs)

/-- The unanchored regex search of line 94: find the first occurrence of
the literal "PT" and return the remaining characters; everything after
"PT" in the pattern is optional, so the regex matches at the first "PT". -/
def findPT : List Char → Option (List Char)
  | [] => none
  | c :: rest =>
    match rest with
    | [] => none
    | c2 :: rest2 => if c == 'P' && c2 == 'T' then some rest2 else findPT rest

/-- isoDurationToSeconds (lines 92-100): parse an ISO 8601 duration such as
"PT1H2M30S" into seconds; any input without a regex match yields 0. -/
def isoDurationToSeconds (iso : String) : Nat :=
  match findPT iso.data with
  | none => 0
  | some rest =>
    let h := groupOr 'H' rest
    let m := groupOr 'M' h.2
    let s := groupOr 'S' m.2
    h.1 * 3600 + m.1 * 60 + s.1

/-- A fetched video, as consumed by the evaluator: the fields of the
snippet / statistics / contentDetails parts that the code reads.  Optional
fields model absent JSON members (`v.statistics && v.statistics.viewCount`
style guards). `publishedAt` is the epoch-millisecond value of the
published date (the code only compares dates numerically). -/
structure Video where
  id : String
  title : String
  description : String
  publishedAt : Int
  viewCount : Option Nat
  duration : Option String
deriving DecidableEq, Repr

/-- Run configuration (lines 38-54); only the fields the evaluator reads.
Integer fields use the documented domains (README: nonnegative ints). -/
structure Config where
  minSubscribers : Nat
  avgViewsMin : Nat
  avgViewsMax : Option Nat
  recentVideoWithinDays : Nat
  sampleSize : Nat
  allowShorts : Bool
  includeKeywords : List String
  excludeKeywords : List String
  country : String
  maxChannels : Nat
deriving DecidableEq, Repr

/-- The default configuration values (lines 40-53). -/
def cfgDefault : Config :=
  { minSubscribers := 1000
    avgViewsMin := 0
    avgViewsMax := none
    recentVideoWithinDays := 30
    sampleSize := 12
    allowShorts := false
    includeKeywords := []
    excludeKeywords := ["entrepreneur", "marketing", "guru", "growth", "7-figure", "funnel", "agency"]
    country := ""
    maxChannels := 200 }

/-- Per-channel data extracted at lines 282-293.  `subscriberCount = none`
models a hidden subscriber count; `country = ""` models a channel without
country metadata (the code reads `snippet.country || ''`). -/
structure ChannelSnapshot where
  channelId : String
  title : String
  description : String
  country : String
  subscriberCount : Option Nat
  uploadsPlaylistId : Option String
deriving DecidableEq, Repr

/-- Stable descending insertion by publish time, modelling the comparator
`(a, b) => new Date(b.publishedAt) - new Date(a.publishedAt)` of line 341. -/
def insertDesc (v : Video) : List Video → List Video
  | [] => [v]
  | w :: ws => if w.publishedAt ≤ v.publishedAt then v :: w :: ws else w :: insertDesc v ws

/-- Sort fetched videos by publishedAt descending (line 341). -/
def sortByPublishedDesc : List Video → List Video
  | [] => []
  | v :: vs => insertDesc v (sortByPublishedDesc vs)

/-- The sample used for all derived metrics: sort descending by publish
time and keep the first `sampleSize` videos (lines 341-342). -/
def sampleOf (sampleSize : Nat) (videos : List Video) : List Video :=
  (sortByPublishedDesc videos).take sampleSize

/-- The per-video view count with missing / unparsable counts treated as 0
(lines 345-348). -/
def viewCountsOf (sample : List Video) : List Nat :=
  sample.map (fun v =>
    match v.viewCount with
    | some n => n
    | none => 0)

/-- JS Math.round on the nonnegative quotient num / den (den > 0):
round half towards positive infinity. -/
def jsRound (num den : Nat) : Nat :=
  (2 * num + den) / (2 * den)

/-- avgViews (line 349): rounded mean of the sample view counts, 0 for an
empty sample. -/
def avgViews (sample : List Video) : Nat :=
  if (viewCountsOf sample).length = 0 then 0
  else jsRound (viewCountsOf sample).sum (viewCountsOf sample).length

/-- hasRecentWithin (lines 352-356): when the day window is positive,
check that some sample video was published on or after
`now - days * 24h`; otherwise the check is disabled and the value stays
`true`. `now` is the epoch-millisecond value of Date.now(). -/
def hasRecentWithin (recentVideoWithinDays : Nat) (now : Int) (sample : List Video) : Bool :=
  if 0 < recentVideoWithinDays then
    sample.any (fun v =>
      decide (now - (recentVideoWithinDays : Int) * 24 * 3600 * 1000 ≤ v.publishedAt))
  else true

/-- The recency filter step (lines 358-361): a candidate is skipped there
exactly when `hasRecentWithin` is false. -/
def recencySkip (cfg : Config) (now : Int) (sample : List Video) : Bool :=
  !hasRecentWithin cfg.recentVideoWithinDays now sample

/-- The parsed duration of a video in seconds, with a missing or empty
duration field yielding 0 (line 365). -/
def videoDurationSeconds (v : Video) : Nat :=
  match v.duration with
  | some d => if d != "" then isoDurationToSeconds d else 0
  | none => 0

/-- Shorts classification of one sample video (lines 364-369): positive
duration strictly under 60 seconds, or the lowercased title contains
"short". -/
def isShortVideo (v : Video) : Bool :=
  (decide (0 < videoDurationSeconds v) && decide (videoDurationSeconds v < 60))
    || strContains (jsToLower v.title) "short"

/-- The shorts fraction of the sample (lines 370-371); named shortsRatio
in the source. -/
def shortsRate (sample : List Video) : ℚ :=
  if sample.length = 0 then 0
  else (sample.countP (fun v => isShortVideo v) : ℚ) / (sample.length : ℚ)

/-- Classification following the words of the spec (claim C1): a sample
video is short iff its parsed duration is strictly under 60 seconds
(duration 0 included) or its title contains "short" case-insensitively. -/
def specIsShortVideo (v : Video) : Bool :=
  decide (videoDurationSeconds v < 60) || strContains (jsToLower v.title) "short"

/-- The shorts fraction the spec sentence of claim C1 describes. -/
def specShortsFraction (sample : List Video) : ℚ :=
  if sample.length = 0 then 0
  else (sample.countP (fun v => specIsShortVideo v) : ℚ) / (sample.length : ℚ)

/-- Amended classification: short iff the parsed duration is strictly
between 0 and 60 seconds, or the title contains "short"
case-insensitively (videos whose parsed duration is 0 are not short). -/
def amendedIsShortVideo (v : Video) : Bool :=
  (decide (0 < videoDurationSeconds v) && decide (videoDurationSeconds v < 60))
    || strContains (jsToLower v.title) "short"

/-- One keyword test of the keyword loops (lines 389-395 and 406-412):
falsy (empty) keywords are skipped, otherwise the lowercased keyword is
searched in the already-lowercased combined text. -/
def keywordHit (text kw : String) : Bool :=
  (kw != "") && strContains text (jsToLower kw)

/-- The exclude-keyword loop (lines 387-400): some exclude keyword hits. -/
def excludeMatch (kws : List String) (text : String) : Bool :=
  kws.any (fun kw => keywordHit text kw)

/-- The include-keyword loop (lines 403-412): some include keyword hits.
The loop body is identical to the exclude loop; it is kept as its own
definition because the source has two separate loops. -/
def includeAnyMatch (kws : List String) (text : String) : Bool :=
  kws.any (fun kw => keywordHit text kw)

/-- The combined text of lines 379-384: channel title, channel
description, and title-space-description of every sample video, joined
with spaces and lowercased. -/
def combinedText (title desc : String) (sample : List Video) : String :=
  jsToLower (joinWithSpace
    ([title, desc] ++ sample.map (fun v => v.title ++ " " ++ v.description)))

/-- The country filter of lines 296-305: with a target country configured,
skip when the channel has no country metadata, or when the channel country
does not case-insensitively contain the target. -/
def countrySkip (cfg : Config) (ch : ChannelSnapshot) : Bool :=
  if cfg.country != "" && ch.country != "" then
    !strContains (jsToLower ch.country) (jsToLower cfg.country)
  else cfg.country != "" && ch.country == ""

/-- The subscriber filter of lines 308-318: a known count below the
minimum is skipped; a hidden count is skipped whenever the minimum is
positive. -/
def subscriberSkip (cfg : Config) (ch : ChannelSnapshot) : Bool :=
  match ch.subscriberCount with
  | some n => decide (n < cfg.minSubscribers)
  | none => decide (0 < cfg.minSubscribers)

/-- One entry of the sampleVideos field of the output record
(lines 444-451). -/
structure SampleVideoOut where
  videoId : String
  title : String
  publishedAt : Int
  viewCount : Nat
  durationSeconds : Nat
  url : String
deriving DecidableEq, Repr

/-- The output record assembled at lines 430-452 for a passing channel.
lastScrapedAt is kept as the epoch-millisecond evaluation time. -/
structure OutputRecord where
  channelId : String
  channelName : String
  channelUrl : String
  subscriberCount : Option Nat
  avgViews : Nat
  sampleSize : Nat
  shortsRate : ℚ
  recentVideoWithinDays : Nat
  includeKeywords : List String
  excludeKeywords : List String
  country : String
  description : String
  lastScrapedAt : Int
  sampleVideos : List SampleVideoOut
deriving DecidableEq, Repr

/-- Assemble the output record (lines 430-452). -/
def mkRecord (cfg : Config) (ch : ChannelSnapshot) (sample : List Video) (now : Int) :
    OutputRecord :=
  { channelId := ch.channelId
    channelName := ch.title
    channelUrl := "https://www.youtube.com/channel/" ++ ch.channelId
    subscriberCount := ch.subscriberCount
    avgViews := avgViews sample
    sampleSize := sample.length
    shortsRate := shortsRate sample
    recentVideoWithinDays := cfg.recentVideoWithinDays
    includeKeywords := cfg.includeKeywords
    excludeKeywords := cfg.excludeKeywords
    country := ch.country
    description := ch.description
    lastScrapedAt := now
    sampleVideos := sample.map (fun v =>
      { videoId := v.id
        title := v.title
        publishedAt := v.publishedAt
        viewCount :=
          match v.viewCount with
          | some n => n
          | none => 0
        durationSeconds := videoDurationSeconds v
        url := "https://www.youtube.com/watch?v=" ++ v.id }) }

/-- Filter steps 7-14 of the evaluator (lines 340-455), run after the
fetches succeeded with a nonempty video list: recency, shorts, exclude
keywords, include keywords, average-view bounds, then the record. -/
def evalFilters (cfg : Config) (ch : ChannelSnapshot) (videos : List Video) (now : Int) :
    Option OutputRecord :=
  if recencySkip cfg now (sampleOf cfg.sampleSize videos) then none
  else if ¬ cfg.allowShorts ∧ 0 < shortsRate (sampleOf cfg.sampleSize videos) then none
  else if cfg.excludeKeywords ≠ [] ∧
      excludeMatch cfg.excludeKeywords
        (combinedText ch.title ch.description (sampleOf cfg.sampleSize videos)) = true then none
  else if cfg.includeKeywords ≠ [] ∧
      includeAnyMatch cfg.includeKeywords
        (combinedText ch.title ch.description (sampleOf cfg.sampleSize videos)) = false then none
  else if avgViews (sampleOf cfg.sampleSize videos) < cfg.avgViewsMin then none
  else
    match cfg.avgViewsMax with
    | some mx =>
      if mx < avgViews (sampleOf cfg.sampleSize videos) then none
      else some (mkRecord cfg ch (sampleOf cfg.sampleSize videos) now)
    | none => some (mkRecord cfg ch (sampleOf cfg.sampleSize videos) now)

/-- Evaluation of one candidate given its fetched channel snapshot and
fetched video details (lines 276-455): country filter, subscriber filter,
uploads-playlist presence, nonempty video fetch, then the metric filters.
The upstream empty checks of lines 278-281 and 328-331 are the fetch-level
failures that the caller models by not reaching this function or by an
empty `videos` list. -/
def evalChannel (cfg : Config) (ch : ChannelSnapshot) (videos : List Video) (now : Int) :
    Option OutputRecord :=
  if countrySkip cfg ch then none
  else if subscriberSkip cfg ch then none
  else if !jsTruthyStr ch.uploadsPlaylistId then none
  else if videos.isEmpty then none
  else evalFilters cfg ch videos now

/-- The candidate array handed to the evaluation loop (line 268):
deduplicated discovery order truncated to Math.max(maxChannels, 0). -/
def channelIdsArray (candidateChannelIds : List String) (maxChannels : Nat) : List String :=
  candidateChannelIds.take (max maxChannels 0)

/-- The evaluation loop of lines 271-467.  `evalCh` abstracts the whole
per-candidate body (fetches, filters, caught per-candidate errors): it
yields `some record` exactly when the candidate passes and is pushed.
The loop guard re-checks `results.length < maxChannels` before every
candidate, and already-processed candidates are skipped. -/
def evalLoop (evalCh : String → Option OutputRecord) (maxChannels : Nat) :
    List String → List String → List OutputRecord → List OutputRecord
  | [], _, results => results
  | c :: rest, processed, results =>
    if results.length < maxChannels then
      if c ∈ processed then evalLoop evalCh maxChannels rest processed results
      else
        match evalCh c with
        | some r => evalLoop evalCh maxChannels rest (c :: processed) (results ++ [r])
        | none => evalLoop evalCh maxChannels rest (c :: processed) results
    else results

/-- Outcome of one fetch inside youtubeApiRequest: a successful JSON body
(abstracted to a number), a non-ok HTTP response with status and body
text, or an exception (network failure, rejected promise, parse error). -/
inductive FetchOutcome where
  | ok (json : Nat)
  | httpError (status : Nat) (text : String)
  | exc (msg : String)
deriving DecidableEq, Repr

/-- Result of a youtubeApiRequest call: the returned JSON, a thrown error
(with its message), or the implicit `undefined` returned when the while
loop of lines 110-143 terminates without returning or throwing. -/
inductive ApiResult where
  | success (json : Nat)
  | failure (msg : String)
  | undef
deriving DecidableEq, Repr

/-- The error message built at line 121. -/
def apiErrorMsg (status : Nat) (text : String) : String :=
  "YouTube API error " ++ toString status ++ ": " ++ text

/-- The backoff delay computed at lines 125 and 139: at that point
`attempt` has already been incremented, so the delay before the n-th
retry is 1000 * 2 ^ n milliseconds. -/
def backoffMs (attempt : Nat) : Nat :=
  1000 * 2 ^ attempt

/-- The retry loop of youtubeApiRequest (lines 109-143).  `fetch` gives
the outcome of the i-th fetch.  The loop runs while
`attempt <= maxRetries`; a 403/429 response always backs off and retries
(lines 123-129); any other failure is caught at line 134, re-raising the
last error once `attempt > maxRetries` (lines 135-137) and backing off
otherwise.  `waits` accumulates the backoff delays slept.  The structural
`fuel` argument starts at `maxRetries + 1` and never runs out before the
loop guard fails, so the `fuel = 0` case coincides with the guard
failing and the function falling through to `undefined`. -/
def apiLoop (fetch : Nat → FetchOutcome) (maxRetries : Nat) :
    Nat → Nat → Nat → List Nat → ApiResult × List Nat
  | 0, _, _, waits => (.undef, waits)
  | fuel + 1, attempt, fIdx, waits =>
    if attempt ≤ maxRetries then
      match fetch fIdx with
      | .ok j => (.success j, waits)
      | .httpError st txt =>
        if st = 403 ∨ st = 429 then
          apiLoop fetch maxRetries fuel (attempt + 1) (fIdx + 1) (waits ++ [backoffMs (attempt + 1)])
        else
          if maxRetries < attempt + 1 then (.failure (apiErrorMsg st txt), waits)
          else apiLoop fetch maxRetries fuel (attempt + 1) (fIdx + 1) (waits ++ [backoffMs (attempt + 1)])
      | .exc m =>
        if maxRetries < attempt + 1 then (.failure m, waits)
        else apiLoop fetch maxRetries fuel (attempt + 1) (fIdx + 1) (waits ++ [backoffMs (attempt + 1)])
    else (.undef, waits)

/-- youtubeApiRequest (lines 103-144) for a given sequence of fetch
outcomes: run the retry loop from attempt 0, returning the call result
together with the list of backoff delays slept. -/
def apiRun (fetch : Nat → FetchOutcome) (maxRetries : Nat) : ApiResult × List Nat :=
  apiLoop fetch maxRetries (maxRetries + 1) 0 0 []

/-- One playlistItems entry as read at line 195: the
contentDetails.videoId member when present (with JS truthiness, an empty
string counts as absent). -/
structure PlaylistItem where
  videoId : Option String
deriving DecidableEq, Repr

/-- One playlistItems page: the items sequence and the continuation
token. -/
structure PlaylistPage where
  items : List PlaylistItem
  nextPageToken : Option String
deriving DecidableEq, Repr

/-- One pass of the loop body of lines 194-196: push the videoId when it
is present and truthy. -/
def pushOne (it : PlaylistItem) (ids : List String) : List String :=
  match it.videoId with
  | some v => if v != "" then ids ++ [v] else ids
  | none => ids

/-- The inner for-loop of lines 194-197: push each truthy videoId, and
after every item (pushed or not) break once `ids.length >= limit`. -/
def pushItems : List PlaylistItem → Nat → List String → List String
  | [], _, ids => ids
  | it :: rest, limit, ids =>
    if limit ≤ (pushOne it ids).length then pushOne it ids
    else pushItems rest limit (pushOne it ids)

/-- The do-while pagination loop of lines 186-200.  `pages` gives the
response to the k-th request (the server may return any number of items
regardless of the maxResults parameter sent); an error response models a
throw, caught at line 201 with the ids collected so far returned.  The
loop continues while the continuation token is truthy and
`ids.length < limit`; `fuel` bounds the number of pages followed (the
real loop can spin forever on a server that keeps returning tokens). -/
def playlistLoop (pages : Nat → Except String PlaylistPage) (limit : Nat) :
    Nat → Nat → List String → List String
  | 0, _, ids => ids
  | fuel + 1, k, ids =>
    match pages k with
    | .error _ => ids
    | .ok resp =>
      let ids2 := pushItems resp.items limit ids
      if jsTruthyStr resp.nextPageToken && decide (ids2.length < limit) then
        playlistLoop pages limit fuel (k + 1) ids2
      else ids2

/-- getPlaylistVideoIds (lines 182-205): run the pagination loop starting
from the first page with no ids collected. -/
def getPlaylistVideoIds (pages : Nat → Except String PlaylistPage) (limit fuel : Nat) :
    List String :=
  playlistLoop pages limit fuel 0 []

/-- One character of the channel-ID character class [A-Za-z0-9_-]. -/
def isChannelIdChar (c : Char) : Bool :=
  c.isUpper || c.isLower || c.isDigit || c == '_' || c == '-'

/-- The canonical channel-ID regex of lines 75 and 246:
^UC[A-Za-z0-9_-]{20,}$ . -/
def isCanonicalChannelId (s : String) : Bool :=
  leadsWith "UC".data s.data && decide (20 ≤ (s.data.drop 2).length)
    && (s.data.drop 2).all isChannelIdChar

/-- The part of a parsed URL the normalizer reads.  The URL parser itself
is the platform's (`new URL(...)`), an external collaborator: it is
passed in as a function returning `none` exactly when the constructor
throws (the catch at lines 85-88). -/
structure ParsedUrl where
  pathname : String
deriving DecidableEq, Repr

/-- normalizeChannelIdOrUrl (lines 71-89): falsy input gives null; the
trimmed input is returned when it matches the canonical ID shape; a URL
parsing as /channel/id gives the id; every other case, including a URL
constructor throw, returns the trimmed input. -/
def normalizeChannelIdOrUrl (parseUrl : String → Option ParsedUrl) (item : String) :
    Option String :=
  if item = "" then none
  else
    let s := jsTrim item
    if isCanonicalChannelId s then some s
    else
      match parseUrl s with
      | some u =>
        match (splitSlash u.pathname).filter (fun p => p != "") with
        | p0 :: p1 :: _ => if p0 = "channel" then some p1 else some s
        | _ => some s
      | none => some s

/-! ## Concrete values used by the claim theorems and witnesses -/

/-- A sample video with the given duration code, whose other fields are
neutral (title "a" does not contain "short"). -/
def vidDur (d : String) : Video :=
  { id := "v", title := "a", description := "", publishedAt := 0,
    viewCount := some 5, duration := some d }

/-- A sample video with the given view count. -/
def vidViews (n : Nat) : Video :=
  { id := "v", title := "", description := "", publishedAt := 0,
    viewCount := some n, duration := none }

/-- Configuration with the recency requirement disabled. -/
def cfgRecencyOff : Config :=
  { cfgDefault with recentVideoWithinDays := 0 }

/-- Configuration with an include keyword that the witness channel text
matches. -/
def cfgW8 : Config :=
  { cfgDefault with includeKeywords := ["coach"] }

/-- A channel whose description contains "Guru" (any case), matching the
default exclude keyword "guru" while also matching the include keyword
"coach". -/
def chW8 : ChannelSnapshot :=
  { channelId := "UCabcdefghijklmnopqrst"
    title := "Coach Channel"
    description := "Business coaching by a Guru"
    country := ""
    subscriberCount := some 50000
    uploadsPlaylistId := some "UUabcdefghijklmnopqrst" }

/-- A long-form recent video for the C8 witness. -/
def vidW8 : Video :=
  { id := "v1", title := "How to coach", description := "coaching tips",
    publishedAt := 1700000000000, viewCount := some 8000, duration := some "PT10M" }

/-- A playlist server that answers every request with one item and no
continuation token. -/
def pagesW9 : Nat → Except String PlaylistPage :=
  fun _ => .ok { items := [{ videoId := some "v1" }], nextPageToken := none }

/-! ## Claim theorems -/

/-- Claim C1, counterexample: a sample whose single video has parsed
duration 0 (duration code "PT0S") and a title without "short" is not
classified short by the code (line 368 requires `dur > 0`), so the
shortsRatio the code computes (0) differs from the fraction the claim
describes (1, since duration 0 is strictly under 60 seconds). -/
theorem c1_counterexample :
    shortsRate [vidDur "PT0S"] ≠ specShortsFraction [vidDur "PT0S"] := by
  have h1 : List.countP (fun v => isShortVideo v) [vidDur "PT0S"] = 0 := by decide
  have h2 : List.countP (fun v => specIsShortVideo v) [vidDur "PT0S"] = 1 := by decide
  norm_num [shortsRate, specShortsFraction, h1, h2]

/-- Claim C1, amended: shortsRatio equals the fraction of sample videos
whose parsed duration is strictly between 0 and 60 seconds or whose title
contains "short" case-insensitively (a video with parsed duration 0 and no
"short" in the title is not counted); for a sample where 2 of 5 videos
have such durations the ratio is 2/5. -/
theorem c1_shortsRate_amended (sample : List Video) :
    (shortsRate sample =
      if sample.length = 0 then 0
      else (sample.countP (fun v => amendedIsShortVideo v) : ℚ) / (sample.length : ℚ)) ∧
    shortsRate [vidDur "PT30S", vidDur "PT10S", vidDur "PT5M", vidDur "PT6M", vidDur "PT7M"]
      = 2 / 5 := by
  constructor
  · rfl
  · have h : List.countP (fun v => isShortVideo v)
        [vidDur "PT30S", vidDur "PT10S", vidDur "PT5M", vidDur "PT6M", vidDur "PT7M"] = 2 := by
      decide
    norm_num [shortsRate, h]

/-- Claim C2: when every attempt receives a rate-limit 429 response, the
429/403 branch of youtubeApiRequest (lines 123-129) increments the
attempt counter and continues without ever re-raising, so the while loop
of line 110 exits and the function returns undefined instead of raising
an error carrying the last message: the claim (and the spec) describe the
intended behaviour, the code is a slip.  The run backs off 2s, 4s, 8s and
16s and then produces no result. -/
theorem c2_rate_limit_exhaustion_returns_undef :
    apiRun (fun _ => FetchOutcome.httpError 429 "quotaExceeded") 3 =
      (ApiResult.undef, [2000, 4000, 8000, 16000]) := by
  rfl

/-- Claim C3: the candidate array handed to evaluation (line 268) holds at
most maxChannels ids, and the evaluation loop (lines 271-467) keeps the
results sequence at or below maxChannels from any intermediate state whose
results already respect the bound (the loop guard re-checks
`results.length < maxChannels` before admitting each candidate). -/
theorem c3_maxChannels_bounds (f : String → Option OutputRecord) (m : Nat)
    (cands rest processed : List String) (results : List OutputRecord)
    (h : results.length ≤ m) :
    (channelIdsArray cands m).length ≤ m ∧
    (evalLoop f m rest processed results).length ≤ m := by
  constructor
  · simp only [channelIdsArray, List.length_take]
    omega
  · induction rest generalizing processed results with
    | nil => simpa [evalLoop] using h
    | cons c cs ih =>
      by_cases hlt : results.length < m
      · by_cases hmem : c ∈ processed
        · simpa [evalLoop, hlt, hmem] using ih processed results h
        · cases hev : f c with
          | some r =>
            simp only [evalLoop, if_pos hlt, hmem, if_neg, hev]
            exact ih (c :: processed) (results ++ [r]) (by simp; omega)
          | none =>
            simp only [evalLoop, if_pos hlt, hmem, if_neg, hev]
            exact ih (c :: processed) results h
      · simpa [evalLoop, hlt] using h

/-- Witness for C3 at a concrete instance. -/
theorem c3_maxChannels_bounds_witness :
    List.length ([] : List OutputRecord) ≤ 2 ∧
    ((channelIdsArray ["a", "b", "c"] 2).length ≤ 2 ∧
      (evalLoop (fun _ => none) 2 ["a", "b"] [] []).length ≤ 2) :=
  ⟨by decide,
    c3_maxChannels_bounds (fun _ => none) 2 ["a", "b", "c"] ["a", "b"] [] [] (by decide)⟩

/-- Claim C4, counterexample: with every fetch failing, the backoff
delays actually slept are 2s, 4s and 8s (the delay of lines 125 and 139
is computed after the attempt counter is incremented), not the 1s, 2s and
4s the claim states. -/
theorem c4_counterexample :
    (apiRun (fun i => FetchOutcome.exc ("e" ++ toString i)) 3).2 = [2000, 4000, 8000] ∧
    [2000, 4000, 8000] ≠ [1000, 2000, 4000] := by
  constructor
  · rfl
  · decide

/-- Claim C4, amended: the delay before the n-th retry is 1000 * 2 ^ n
milliseconds (2s, 4s, 8s), and in the generic-failure path the ceiling is
3 retry attempts, after which the last error message is surfaced to the
caller. -/
theorem c4_backoff_amended (msgs : Nat → String) :
    apiRun (fun i => FetchOutcome.exc (msgs i)) 3 =
      (ApiResult.failure (msgs 3), [backoffMs 1, backoffMs 2, backoffMs 3]) ∧
    backoffMs 1 = 2000 ∧ backoffMs 2 = 4000 ∧ backoffMs 3 = 8000 :=
  ⟨rfl, rfl, rfl, rfl⟩

/-- Claim C5, counterexample: the normalizer trims its input first
(line 73), so the malformed input " abc " (not a canonical id, not a
parseable URL) comes back as "abc", not as the original string. -/
theorem c5_counterexample :
    normalizeChannelIdOrUrl (fun _ => none) " abc " = some "abc" ∧
    (some "abc" : Option String) ≠ some " abc " := by
  constructor
  · rfl
  · decide

/-- Claim C5, amended: for every nonempty input whose trimmed form is not
a canonical channel id and fails URL parsing, the normalizer returns the
trimmed input (and no exception escapes: the URL-constructor throw is the
`parseUrl = none` case, caught at lines 85-88); the empty input yields
null. -/
theorem c5_normalizer_amended (parseUrl : String → Option ParsedUrl) (item : String)
    (h1 : item ≠ "") (h2 : isCanonicalChannelId (jsTrim item) = false)
    (h3 : parseUrl (jsTrim item) = none) :
    normalizeChannelIdOrUrl parseUrl item = some (jsTrim item) := by
  simp [normalizeChannelIdOrUrl, h1, h2, h3]

/-- Witness for the amended C5 at the concrete input " abc ". -/
theorem c5_normalizer_amended_witness :
    (" abc " ≠ "" ∧ isCanonicalChannelId (jsTrim " abc ") = false ∧
      (fun (_ : String) => (none : Option ParsedUrl)) (jsTrim " abc ") = none) ∧
    normalizeChannelIdOrUrl (fun _ => none) " abc " = some (jsTrim " abc ") :=
  ⟨⟨by decide, by decide, rfl⟩,
    c5_normalizer_amended (fun _ => none) " abc " (by decide) (by decide) rfl⟩

/-- Bounds showing jsRound num den is the integer nearest num / den
(within half of the denominator), for a positive denominator. -/
theorem jsRound_bounds (s l : Nat) (hl : 0 < l) :
    2 * s ≤ 2 * l * jsRound s l + l ∧ 2 * l * jsRound s l ≤ 2 * s + l := by
  unfold jsRound
  have h1 := Nat.div_add_mod (2 * s + l) (2 * l)
  have h2 : (2 * s + l) % (2 * l) < 2 * l := Nat.mod_lt _ (by omega)
  generalize hq : (2 * s + l) / (2 * l) = q at h1 ⊢
  generalize hr : (2 * s + l) % (2 * l) = r at h1 h2
  generalize hp : 2 * l * q = p at h1 ⊢
  omega

/-- Claim C6: avgViews is the rounded integer mean of the sample view
counts with missing counts treated as 0: it is 0 on the empty sample,
2000 on view counts [1000, 2000, 3000], and in general lies within half
a unit of the exact mean (stated multiplied through by twice the sample
length). -/
theorem c6_avgViews_rounded_mean (sample : List Video) :
    avgViews [] = 0 ∧
    avgViews [vidViews 1000, vidViews 2000, vidViews 3000] = 2000 ∧
    2 * (viewCountsOf sample).sum ≤ 2 * sample.length * avgViews sample + sample.length ∧
    2 * sample.length * avgViews sample ≤ 2 * (viewCountsOf sample).sum + sample.length := by
  refine ⟨rfl, by decide, ?_⟩
  have hlen : (viewCountsOf sample).length = sample.length := by
    simp [viewCountsOf]
  rcases Nat.eq_zero_or_pos sample.length with hl | hl
  · have hs : sample = [] := List.length_eq_zero.mp hl
    subst hs
    simp [avgViews, viewCountsOf]
  · have havg : avgViews sample
        = jsRound (viewCountsOf sample).sum sample.length := by
      rw [avgViews, if_neg (by omega), hlen]
    rw [havg]
    exact jsRound_bounds (viewCountsOf sample).sum sample.length hl

/-- Claim C7: with recentVideoWithinDays = 0 the guard of line 353 is
false, so hasRecentWithin keeps its initial value true for every sample
(the empty one included) and the recency filter skips nothing. -/
theorem c7_recency_disabled (cfg : Config) (now : Int) (sample : List Video)
    (h : cfg.recentVideoWithinDays = 0) :
    hasRecentWithin cfg.recentVideoWithinDays now sample = true ∧
    recencySkip cfg now sample = false := by
  simp [hasRecentWithin, recencySkip, h]

/-- Witness for C7 with the recency window set to 0 and an empty sample. -/
theorem c7_recency_disabled_witness :
    cfgRecencyOff.recentVideoWithinDays = 0 ∧
    (hasRecentWithin cfgRecencyOff.recentVideoWithinDays 1700000000000 [] = true ∧
      recencySkip cfgRecencyOff 1700000000000 [] = false) :=
  ⟨rfl, c7_recency_disabled cfgRecencyOff 1700000000000 [] rfl⟩

/-- A hit in the exclude-keyword loop needs a nonempty keyword list. -/
theorem excludeMatch_ne_nil {kws : List String} {t : String}
    (h : excludeMatch kws t = true) : kws ≠ [] := by
  intro hk
  subst hk
  simp [excludeMatch] at h

/-- The filter chain yields no record once an exclude keyword matches the
combined text: the exclusion check of lines 387-399 precedes the include
check and the average-view bounds. -/
theorem evalFilters_eq_none_of_excl (cfg : Config) (ch : ChannelSnapshot)
    (videos : List Video) (now : Int)
    (h : excludeMatch cfg.excludeKeywords
      (combinedText ch.title ch.description (sampleOf cfg.sampleSize videos)) = true) :
    evalFilters cfg ch videos now = none := by
  have hne := excludeMatch_ne_nil h
  unfold evalFilters
  split_ifs <;> simp_all

/-- Claim C8: a candidate whose combined text (channel title, channel
description and every sample video title and description) matches some
exclude keyword case-insensitively is skipped by the evaluator — it
yields no output record, whatever the include keywords say (the include
check only runs after the exclusion check, lines 387-417). -/
theorem c8_exclude_keyword_skips (cfg : Config) (ch : ChannelSnapshot)
    (videos : List Video) (now : Int)
    (h : excludeMatch cfg.excludeKeywords
      (combinedText ch.title ch.description (sampleOf cfg.sampleSize videos)) = true) :
    evalChannel cfg ch videos now = none := by
  unfold evalChannel
  split_ifs <;> first
    | rfl
    | exact evalFilters_eq_none_of_excl cfg ch videos now h

/-- Witness for C8: the default exclude keyword "guru" matches the
channel description "Business coaching by a Guru" even though the include
keyword "coach" matches as well; the channel is skipped. -/
theorem c8_exclude_keyword_skips_witness :
    excludeMatch cfgW8.excludeKeywords
      (combinedText chW8.title chW8.description (sampleOf cfgW8.sampleSize [vidW8])) = true ∧
    evalChannel cfgW8 chW8 [vidW8] 1700000000000 = none :=
  ⟨by decide, c8_exclude_keyword_skips cfgW8 chW8 [vidW8] 1700000000000 (by decide)⟩

/-- Pushing one item grows the id list by at most one entry. -/
theorem pushOne_length_le (it : PlaylistItem) (ids : List String) :
    (pushOne it ids).length ≤ ids.length + 1 := by
  unfold pushOne
  cases it.videoId with
  | some v => by_cases hv : v != "" <;> simp [hv]
  | none => simp

/-- The inner item loop never pushes past the limit when it starts
strictly below it: the break of line 196 fires as soon as the limit is
reached. -/
theorem pushItems_length_le (its : List PlaylistItem) (limit : Nat) :
    ∀ ids : List String, ids.length < limit → (pushItems its limit ids).length ≤ limit := by
  induction its with
  | nil =>
    intro ids h
    simpa [pushItems] using Nat.le_of_lt h
  | cons it rest ih =>
    intro ids h
    have hlen := pushOne_length_le it ids
    simp only [pushItems]
    by_cases hstop : limit ≤ (pushOne it ids).length
    · rw [if_pos hstop]
      omega
    · rw [if_neg hstop]
      exact ih (pushOne it ids) (by omega)

/-- The pagination loop keeps the collected ids at or below the limit
whenever it starts strictly below it. -/
theorem playlistLoop_length_le (pages : Nat → Except String PlaylistPage) (limit : Nat) :
    ∀ (fuel k : Nat) (ids : List String), ids.length < limit →
      (playlistLoop pages limit fuel k ids).length ≤ limit := by
  intro fuel
  induction fuel with
  | zero =>
    intro k ids h
    simpa [playlistLoop] using Nat.le_of_lt h
  | succ n ih =>
    intro k ids h
    cases hp : pages k with
    | error e => simpa [playlistLoop, hp] using Nat.le_of_lt h
    | ok resp =>
      simp only [playlistLoop, hp]
      have hpush := pushItems_length_le resp.items limit ids h
      by_cases hcont : (jsTruthyStr resp.nextPageToken
          && decide ((pushItems resp.items limit ids).length < limit)) = true
      · rw [if_pos hcont]
        have hlt : (pushItems resp.items limit ids).length < limit := by
          have := (Bool.and_eq_true _ _).mp hcont
          exact of_decide_eq_true this.2
        exact ih (k + 1) (pushItems resp.items limit ids) hlt
      · rw [if_neg hcont]
        exact hpush

/-- With limit 0 the do-while body of lines 186-200 still runs once, and
one item can be pushed before the break check fires. -/
theorem pushItems_zero_from_nil (its : List PlaylistItem) :
    (pushItems its 0 []).length ≤ 1 := by
  cases its with
  | nil => simp [pushItems]
  | cons it rest =>
    simp only [pushItems]
    rw [if_pos (Nat.zero_le _)]
    simpa using pushOne_length_le it []

/-- Claim C9, counterexample: with requested limit 0 the unconditional
first run of the do-while body pushes one id before the break check, so
the fetch returns one id, exceeding the limit. -/
theorem c9_counterexample :
    getPlaylistVideoIds pagesW9 0 1 = ["v1"] ∧
    ¬ (getPlaylistVideoIds pagesW9 0 1).length ≤ 0 := by
  constructor
  · rfl
  · decide

/-- Claim C9, amended: the paginated fetch returns at most
max(limit, 1) ids — at most `limit` for every limit ≥ 1; only for
limit = 0 can a single id slip through, because the do-while body runs
once before the loop condition is checked. -/
theorem c9_limit_cap_amended (pages : Nat → Except String PlaylistPage) (limit fuel : Nat) :
    (getPlaylistVideoIds pages limit fuel).length ≤ max limit 1 := by
  cases limit with
  | zero =>
    cases fuel with
    | zero => simp [getPlaylistVideoIds, playlistLoop]
    | succ n =>
      cases hp : pages 0 with
      | error e => simp [getPlaylistVideoIds, playlistLoop, hp]
      | ok resp =>
        have h1 := pushItems_zero_from_nil resp.items
        simp only [getPlaylistVideoIds, playlistLoop, hp]
        have hcond : (jsTruthyStr resp.nextPageToken
            && decide ((pushItems resp.items 0 []).length < 0)) = false := by
          simp
        rw [hcond]
        simpa using h1
  | succ l =>
    have h := playlistLoop_length_le pages (l + 1) fuel 0 [] (by simp)
    simpa [getPlaylistVideoIds] using h

/-- Claim C10: empty-string keywords are skipped by the `if (!kw)
continue` guards of lines 390 and 407: an empty keyword never produces a
hit, so inserting one anywhere in the exclude or include list leaves both
keyword matches unchanged. -/
theorem c10_empty_keyword_ignored (t : String) (kws1 kws2 : List String) :
    keywordHit t "" = false ∧
    excludeMatch (kws1 ++ "" :: kws2) t = excludeMatch (kws1 ++ kws2) t ∧
    includeAnyMatch (kws1 ++ "" :: kws2) t = includeAnyMatch (kws1 ++ kws2) t := by
  refine ⟨rfl, ?_, ?_⟩ <;>
    simp [excludeMatch, includeAnyMatch, keywordHit]
